import Mathlib

/-!
# Berth storm fragility models: a shallow embedding

This file embeds the fragility-model functions of `berth_storm_fragility.py`
in Lean 4 and proves properties of them.  Each Python function is a pure
computation: it reads numeric intensity measures and structural parameters,
selects a polynomial logit by comparing categorical string selectors, and
returns the logistic transform of that logit.  When no selector branch
matches, the Python code leaves the logit variable undefined and the call
fails; we model that failure as `none` of an `Option ℝ` result.
-/

namespace BerthStormFragility

/-- Intensity measures record: maximum wave height `Hmax` (m) and relative
surge elevation (clearance) `Zc` (m). -/
structure IntensityMeasures where
  Hmax : ℝ
  Zc : ℝ

/-- Parameters of `pile_connection_pf_balomenos`: moment connection type
(`"full"` or `"partial"`) and compression zone (`"in"` or `"out"`). -/
structure BalomenosParams where
  moment : String
  comp_zone : String

/-- Parameters of `pile_connection_pf_uplift_maniglio`: deck thickness `bh`,
deck length `bl`, deck width `bw`, dowel diameter `dse`, number of dowels
`nb`, and pile position `pos` (`"internal"` or `"seaward"`). -/
structure UpliftManiglioParams where
  bh : ℝ
  bl : ℝ
  bw : ℝ
  dse : ℝ
  nb : ℝ
  pos : String

/-- Parameters of `pile_connection_pf_flexural_maniglio`: cantilever length
`b1`, first span length `b2`, deck thickness `bh`, deck width `bw`, dowel
diameter `dse`, number of dowels `nb`, pile diameter `dp`, time `t`,
concrete cover `X`, pile height `depth`, and corrosion type `corr`
(`"uniform"` or ` "pitting"`). -/
structure FlexuralManiglioParams where
  b1 : ℝ
  b2 : ℝ
  bh : ℝ
  bw : ℝ
  dse : ℝ
  nb : ℝ
  dp : ℝ
  t : ℝ
  X : ℝ
  depth : ℝ
  corr : String

/-- The logistic transform `exp g / (1 + exp g)` applied to a logit `g`,
shared by every fragility function in the source (`pf = np.exp(g)/(1+np.exp(g))`). -/
noncomputable def logistic (g : ℝ) : ℝ := Real.exp g / (1 + Real.exp g)

/-- Embedding of `pile_connection_pf_balomenos`: uplift fragility with four
coefficient sets selected by `moment` and `comp_zone`.  An unmatched selector
combination leaves `g` undefined in the source, modelled as `none`. -/
noncomputable def pile_connection_pf_balomenos
    (IM : IntensityMeasures) (params : BalomenosParams) : Option ℝ :=
  let Hmax := IM.Hmax
  let Zc := IM.Zc
  let g : Option ℝ :=
    if params.moment = "full" ∧ params.comp_zone = "in" then
      some (-27.06 + 9.02*Hmax - 1.88*Zc + 0.18*Hmax*Zc - Hmax^2 + 0.04*Hmax^3)
    else if params.moment = "full" ∧ params.comp_zone = "out" then
      some (-26.89 + 11.35*Hmax - 2.50*Zc + 0.30*Hmax*Zc - 1.62*Hmax^2 + 0.09*Hmax^3)
    else if params.moment = "partial" ∧ params.comp_zone = "in" then
      some (-15.01 + 6.12*Hmax - 2.87*Zc + 0.39*Hmax*Zc - 0.61*Hmax^2 - 0.28*Zc^2 + 0.03*Hmax^3)
    else if params.moment = "partial" ∧ params.comp_zone = "out" then
      some (-20.945 + 13.27*Hmax - 4.73*Zc + 0.90*Hmax*Zc - 2.71*Hmax^2 - 0.5*Zc^2 + 0.23*Hmax^3)
    else none
  g.map logistic

/-- Embedding of `pile_connection_pf_uplift_maniglio`: uplift fragility with
aging and geometry covariates, with two coefficient sets selected by the pile
position `pos`.  An unmatched selector leaves the logit undefined in the
source, modelled as `none`. -/
noncomputable def pile_connection_pf_uplift_maniglio
    (IM : IntensityMeasures) (params : UpliftManiglioParams) : Option ℝ :=
  let Hmax := IM.Hmax
  let Zc := IM.Zc
  let bh := params.bh
  let bl := params.bl
  let bw := params.bw
  let dse := params.dse
  let nb := params.nb
  let logit : Option ℝ :=
    if params.pos = "internal" then
      some (-14.654 + 6.2338*Hmax - 3.4827*Zc
            - 30.34*bh + 2.6329*bl + 1.8639*bw - 216.59*dse
            - 0.49599*nb + 0.62134*Hmax*Zc - 0.59376*Hmax^2
            - 0.53821*Zc^2 + 13.322*bh^2 - 0.12446*bl^2
            - 0.064453*bw^2 - 0.029003*Hmax^2*Zc
            + 0.097103*Hmax*Zc^2 + 0.021735*Hmax^3
            - 0.0043198*Hmax^2*Zc^2)
    else if params.pos = "seaward" then
      some (-8.8361 + 5.8162*Hmax - 3.8618*Zc
            - 28.851*bh + 2.9167*bl + 1.9991*bw
            - 206.19*dse - 1.4172*nb + 0.78347*Hmax*Zc
            - 0.53459*Hmax^2 - 0.78347*Zc^2 + 11.851*bh^2
            - 0.14821*bl^2 + 0.037589*bw^2 - 0.042766*Hmax^2*Zc
            + 0.14262*Hmax*Zc^2 + 0.019439*Hmax^3
            - 0.065198*Zc^3 - 0.006523*Hmax^2*Zc^2
            + 0.0068831*Hmax*Zc^3)
    else none
  logit.map logistic

/-- Embedding of `pile_connection_pf_flexural_maniglio`: flexural fragility
for seaward piles with aging via corrosion type, with two coefficient sets
selected by `corr`.  An unmatched selector leaves the logit undefined in the
source, modelled as `none`. -/
noncomputable def pile_connection_pf_flexural_maniglio
    (IM : IntensityMeasures) (params : FlexuralManiglioParams) : Option ℝ :=
  let Hmax := IM.Hmax
  let Zc := IM.Zc
  let b1 := params.b1
  let b2 := params.b2
  let bh := params.bh
  let bw := params.bw
  let dse := params.dse
  let nb := params.nb
  let dp := params.dp
  let t := params.t
  let X := params.X
  let depth := params.depth
  let logit : Option ℝ :=
    if params.corr = "uniform" then
      some (7.3471 + 2.791*Hmax - 3.1557*Zc + 0.40065*depth - 1.8352*bh + 0.42456*b1
            - 0.27151*b2 + 0.019989*bw
            + 0.75947*dp - 414.19*dse - 0.70704*nb + 0.011253*t + 0.42697*Hmax*Zc
            + 0.043476*Hmax*b2
            + 0.022533*Hmax*bw - 0.035697*Zc*depth + 27.799*Zc*dse + 0.03824*Zc*nb
            - 0.023764*nb*depth - 0.094056*b1*bw
            + 14.193*bw*dse + 0.021738*bw*nb - 0.38302*Hmax^2 + 0.22222*Zc^2
            - 0.023178*bw^2 + 0.021518*nb^2
            - 0.024721*Hmax^2*Zc + 0.032323*Hmax*Zc^2 + 0.01736*Hmax^3)
    else if params.corr = "pitting" then
      some (16.653 + 1.4314*Hmax - 2.6166*Zc + 0.11173*depth - 1.58342*bh + 0.29456*b1
            - 0.2446*b2 + 0.29089*bw
            - 416.49*dse - 0.55746*nb - 0.81204*X + 0.099918*t + 0.14032*Hmax*Zc
            + 0.032531*Hmax*b2 + 0.031734*Hmax*bw
            - 0.030395*Zc*depth + 0.026797*Zc*b2 + 32.384*Zc*dse + 0.03363*Zc*nb
            - 0.0027384*Zc*t + 14.083*bw*dse
            + 0.024709*bw*nb - 0.0099845*X*t - 0.10253*Hmax^2 + 0.14287*Zc^2
            - 0.02174*bw^2 + 0.047843*X^2 + 0.00038818*t^2
            + 0.019461*Hmax*Zc^2)
    else none
  logit.map logistic

/-- Embedding of the dispatcher `pile_connection_uplift_pf`: both the
`"balomenos"` and the `"maniglio"` branch call
`pile_connection_pf_flexural_maniglio`; any other model name leaves `pf`
undefined in the source, modelled as `none`. -/
noncomputable def pile_connection_uplift_pf
    (IM : IntensityMeasures) (params : FlexuralManiglioParams)
    (model : String := "maniglio") : Option ℝ :=
  if model = "balomenos" then
    pile_connection_pf_flexural_maniglio IM params
  else if model = "maniglio" then
    pile_connection_pf_flexural_maniglio IM params
  else none

/-! ## Basic properties of the logistic transform -/

/-- The logistic transform of any finite logit is positive. -/
theorem logistic_pos (g : ℝ) : 0 < logistic g := by
  unfold logistic
  have h := Real.exp_pos g
  positivity

/-- The logistic transform of any finite logit is below one. -/
theorem logistic_lt_one (g : ℝ) : logistic g < 1 := by
  unfold logistic
  rw [div_lt_one (by positivity)]
  linarith [Real.exp_pos g]

/-- The logistic transform is strictly increasing. -/
theorem logistic_strictMono : StrictMono logistic := by
  intro a b hab
  unfold logistic
  rw [div_lt_div_iff₀ (by positivity) (by positivity)]
  have ha := Real.exp_pos a
  have hb := Real.exp_pos b
  have h := Real.exp_lt_exp.mpr hab
  nlinarith

/-! ## Branch-evaluation lemmas -/

lemma balomenos_full_in (IM : IntensityMeasures) (p : BalomenosParams)
    (hm : p.moment = "full") (hc : p.comp_zone = "in") :
    pile_connection_pf_balomenos IM p =
      some (logistic (-27.06 + 9.02*IM.Hmax - 1.88*IM.Zc + 0.18*IM.Hmax*IM.Zc
        - IM.Hmax^2 + 0.04*IM.Hmax^3)) := by
  simp [pile_connection_pf_balomenos, hm, hc]

lemma balomenos_full_out (IM : IntensityMeasures) (p : BalomenosParams)
    (hm : p.moment = "full") (hc : p.comp_zone = "out") :
    pile_connection_pf_balomenos IM p =
      some (logistic (-26.89 + 11.35*IM.Hmax - 2.50*IM.Zc + 0.30*IM.Hmax*IM.Zc
        - 1.62*IM.Hmax^2 + 0.09*IM.Hmax^3)) := by
  simp [pile_connection_pf_balomenos, hm, hc]

lemma balomenos_partial_in (IM : IntensityMeasures) (p : BalomenosParams)
    (hm : p.moment = "partial") (hc : p.comp_zone = "in") :
    pile_connection_pf_balomenos IM p =
      some (logistic (-15.01 + 6.12*IM.Hmax - 2.87*IM.Zc + 0.39*IM.Hmax*IM.Zc
        - 0.61*IM.Hmax^2 - 0.28*IM.Zc^2 + 0.03*IM.Hmax^3)) := by
  simp [pile_connection_pf_balomenos, hm, hc]

lemma balomenos_partial_out (IM : IntensityMeasures) (p : BalomenosParams)
    (hm : p.moment = "partial") (hc : p.comp_zone = "out") :
    pile_connection_pf_balomenos IM p =
      some (logistic (-20.945 + 13.27*IM.Hmax - 4.73*IM.Zc + 0.90*IM.Hmax*IM.Zc
        - 2.71*IM.Hmax^2 - 0.5*IM.Zc^2 + 0.23*IM.Hmax^3)) := by
  simp [pile_connection_pf_balomenos, hm, hc]

/-! ## Error-condition lemmas: a `none` result exactly characterises an
invalid selector. -/

lemma balomenos_eq_none_iff (IM : IntensityMeasures) (p : BalomenosParams) :
    pile_connection_pf_balomenos IM p = none ↔
      ¬((p.moment = "full" ∨ p.moment = "partial") ∧
        (p.comp_zone = "in" ∨ p.comp_zone = "out")) := by
  unfold pile_connection_pf_balomenos
  simp only [Option.map_eq_none']
  set_option linter.unnecessarySeqFocus false in
  split_ifs with h1 h2 h3 h4 <;> simp_all <;> tauto

lemma uplift_maniglio_eq_none_iff (IM : IntensityMeasures)
    (p : UpliftManiglioParams) :
    pile_connection_pf_uplift_maniglio IM p = none ↔
      ¬(p.pos = "internal" ∨ p.pos = "seaward") := by
  unfold pile_connection_pf_uplift_maniglio
  simp only [Option.map_eq_none']
  split_ifs with h1 h2 <;> simp_all

lemma flexural_maniglio_eq_none_iff (IM : IntensityMeasures)
    (p : FlexuralManiglioParams) :
    pile_connection_pf_flexural_maniglio IM p = none ↔
      ¬(p.corr = "uniform" ∨ p.corr = "pitting") := by
  unfold pile_connection_pf_flexural_maniglio
  simp only [Option.map_eq_none']
  split_ifs with h1 h2 <;> simp_all

lemma dispatcher_eq_none_iff (IM : IntensityMeasures)
    (p : FlexuralManiglioParams) (model : String) :
    pile_connection_uplift_pf IM p model = none ↔
      (¬(model = "balomenos" ∨ model = "maniglio") ∨
        ¬(p.corr = "uniform" ∨ p.corr = "pitting")) := by
  unfold pile_connection_uplift_pf
  split_ifs with h1 h2 <;>
    simp_all [flexural_maniglio_eq_none_iff]

/-! ## Claim theorems -/

/-- C1: For every intensity-measures record and every parameter record, the
dispatcher `pile_connection_uplift_pf` returns exactly the value of
`pile_connection_pf_flexural_maniglio` for both the `"maniglio"` and the
`"balomenos"` model name: it never routes to the balomenos uplift function or
the maniglio uplift function. -/
theorem dispatcher_routes_both_models_to_flexural_maniglio
    (IM : IntensityMeasures) (params : FlexuralManiglioParams) :
    pile_connection_uplift_pf IM params "maniglio"
        = pile_connection_pf_flexural_maniglio IM params ∧
    pile_connection_uplift_pf IM params "balomenos"
        = pile_connection_pf_flexural_maniglio IM params := by
  unfold pile_connection_uplift_pf
  norm_num

/-- C2: Every evaluation function and the dispatcher fails (returns `none`,
the embedding of the source leaving the result undefined, specified as an
InvalidSelector error) exactly when a categorical selector lies outside its
enumerated legal set; in that case no probability is computed. -/
theorem invalid_selector_yields_error_and_no_result :
    (∀ IM p, pile_connection_pf_balomenos IM p = none ↔
      ¬((p.moment = "full" ∨ p.moment = "partial") ∧
        (p.comp_zone = "in" ∨ p.comp_zone = "out"))) ∧
    (∀ IM p, pile_connection_pf_uplift_maniglio IM p = none ↔
      ¬(p.pos = "internal" ∨ p.pos = "seaward")) ∧
    (∀ IM p, pile_connection_pf_flexural_maniglio IM p = none ↔
      ¬(p.corr = "uniform" ∨ p.corr = "pitting")) ∧
    (∀ IM p model, pile_connection_uplift_pf IM p model = none ↔
      (¬(model = "balomenos" ∨ model = "maniglio") ∨
        ¬(p.corr = "uniform" ∨ p.corr = "pitting"))) :=
  ⟨balomenos_eq_none_iff, uplift_maniglio_eq_none_iff,
   flexural_maniglio_eq_none_iff, dispatcher_eq_none_iff⟩

/-- C3: For every real `Hmax` and `Zc` (also outside the documented domains,
which are extrapolated, not rejected) and each of the four legal
`(moment, comp_zone)` combinations, `pile_connection_pf_balomenos` returns
`exp g / (1 + exp g)` where `g` is that branch's published cubic polynomial. -/
theorem balomenos_computes_logistic_of_published_polynomials (Hmax Zc : ℝ) :
    pile_connection_pf_balomenos ⟨Hmax, Zc⟩ ⟨"full", "in"⟩ =
      some (Real.exp (-27.06 + 9.02*Hmax - 1.88*Zc + 0.18*Hmax*Zc - Hmax^2 + 0.04*Hmax^3) /
        (1 + Real.exp (-27.06 + 9.02*Hmax - 1.88*Zc + 0.18*Hmax*Zc - Hmax^2 + 0.04*Hmax^3))) ∧
    pile_connection_pf_balomenos ⟨Hmax, Zc⟩ ⟨"full", "out"⟩ =
      some (Real.exp (-26.89 + 11.35*Hmax - 2.50*Zc + 0.30*Hmax*Zc - 1.62*Hmax^2 + 0.09*Hmax^3) /
        (1 + Real.exp (-26.89 + 11.35*Hmax - 2.50*Zc + 0.30*Hmax*Zc - 1.62*Hmax^2 + 0.09*Hmax^3))) ∧
    pile_connection_pf_balomenos ⟨Hmax, Zc⟩ ⟨"partial", "in"⟩ =
      some (Real.exp (-15.01 + 6.12*Hmax - 2.87*Zc + 0.39*Hmax*Zc - 0.61*Hmax^2
          - 0.28*Zc^2 + 0.03*Hmax^3) /
        (1 + Real.exp (-15.01 + 6.12*Hmax - 2.87*Zc + 0.39*Hmax*Zc - 0.61*Hmax^2
          - 0.28*Zc^2 + 0.03*Hmax^3))) ∧
    pile_connection_pf_balomenos ⟨Hmax, Zc⟩ ⟨"partial", "out"⟩ =
      some (Real.exp (-20.945 + 13.27*Hmax - 4.73*Zc + 0.90*Hmax*Zc - 2.71*Hmax^2
          - 0.5*Zc^2 + 0.23*Hmax^3) /
        (1 + Real.exp (-20.945 + 13.27*Hmax - 4.73*Zc + 0.90*Hmax*Zc - 2.71*Hmax^2
          - 0.5*Zc^2 + 0.23*Hmax^3))) := by
  refine ⟨?_, ?_, ?_, ?_⟩
  · rw [balomenos_full_in _ _ rfl rfl]; rfl
  · rw [balomenos_full_out _ _ rfl rfl]; rfl
  · rw [balomenos_partial_in _ _ rfl rfl]; rfl
  · rw [balomenos_partial_out _ _ rfl rfl]; rfl

/-- Any value produced through `Option.map logistic` lies strictly between
0 and 1. -/
lemma map_logistic_mem_unit (o : Option ℝ) (pf : ℝ)
    (h : o.map logistic = some pf) : 0 < pf ∧ pf < 1 := by
  rcases o with _ | g
  · simp at h
  · simp only [Option.map_some', Option.some.injEq] at h
    exact h ▸ ⟨logistic_pos g, logistic_lt_one g⟩

/-- C4: Whenever one of the three evaluation functions accepts its selectors
and returns a probability, that probability lies strictly between 0 and 1. -/
theorem accepted_evaluation_lies_in_open_unit_interval :
    (∀ IM p pf, pile_connection_pf_balomenos IM p = some pf → 0 < pf ∧ pf < 1) ∧
    (∀ IM p pf, pile_connection_pf_uplift_maniglio IM p = some pf → 0 < pf ∧ pf < 1) ∧
    (∀ IM p pf, pile_connection_pf_flexural_maniglio IM p = some pf → 0 < pf ∧ pf < 1) := by
  refine ⟨fun IM p pf h => ?_, fun IM p pf h => ?_, fun IM p pf h => ?_⟩
  · unfold pile_connection_pf_balomenos at h
    exact map_logistic_mem_unit _ _ h
  · unfold pile_connection_pf_uplift_maniglio at h
    exact map_logistic_mem_unit _ _ h
  · unfold pile_connection_pf_flexural_maniglio at h
    exact map_logistic_mem_unit _ _ h

/-- Witness for C4: the balomenos full/in result at the origin is strictly
between 0 and 1. -/
theorem accepted_evaluation_lies_in_open_unit_interval_witness :
    0 < logistic (-27.06) ∧ logistic (-27.06) < 1 :=
  accepted_evaluation_lies_in_open_unit_interval.1 ⟨0, 0⟩ ⟨"full", "in"⟩
    (logistic (-27.06)) (by rw [balomenos_full_in _ _ rfl rfl]; norm_num)

/-! ## Rational bounds on `exp 4.42`, for the concrete scenario -/

lemma exp_105_lb : (1.105 : ℝ) ≤ Real.exp 0.105 := by
  have h := Real.add_one_le_exp (0.105 : ℝ)
  linarith

lemma exp_neg_105_lb : (0.895 : ℝ) ≤ Real.exp (-0.105) := by
  have h := Real.add_one_le_exp (-0.105 : ℝ)
  linarith

lemma exp_042_lb : (1.4909 : ℝ) ≤ Real.exp 0.42 := by
  have h2 : Real.exp (0.42 : ℝ) = Real.exp 0.105 ^ (4 : ℕ) := by
    rw [← Real.exp_nat_mul]; norm_num
  rw [h2]
  calc (1.4909 : ℝ) ≤ 1.105 ^ (4 : ℕ) := by norm_num
    _ ≤ Real.exp 0.105 ^ (4 : ℕ) := pow_le_pow_left₀ (by norm_num) exp_105_lb 4

lemma exp_042_ub : Real.exp 0.42 ≤ (1.5586 : ℝ) := by
  have h1 : Real.exp (0.105 : ℝ) ≤ 1 / 0.895 := by
    have hmul : Real.exp (0.105 : ℝ) * Real.exp (-0.105) = 1 := by
      rw [← Real.exp_add]; norm_num
    have hpos := Real.exp_pos (-0.105 : ℝ)
    nlinarith [exp_neg_105_lb, Real.exp_pos (0.105 : ℝ)]
  have h2 : Real.exp (0.42 : ℝ) = Real.exp 0.105 ^ (4 : ℕ) := by
    rw [← Real.exp_nat_mul]; norm_num
  rw [h2]
  calc Real.exp 0.105 ^ (4 : ℕ) ≤ (1 / 0.895) ^ (4 : ℕ) :=
        pow_le_pow_left₀ (le_of_lt (Real.exp_pos _)) h1 4
    _ ≤ (1.5586 : ℝ) := by norm_num

lemma exp_442_split : Real.exp (4.42 : ℝ) = Real.exp 1 ^ (4 : ℕ) * Real.exp 0.42 := by
  rw [← Real.exp_nat_mul, ← Real.exp_add]; norm_num

lemma exp_442_lb : (81.39 : ℝ) < Real.exp 4.42 := by
  rw [exp_442_split]
  have e1 : (2.7182818283 : ℝ) ≤ Real.exp 1 := le_of_lt Real.exp_one_gt_d9
  have h1 : (2.7182818283 : ℝ) ^ (4 : ℕ) ≤ Real.exp 1 ^ (4 : ℕ) :=
    pow_le_pow_left₀ (by norm_num) e1 4
  nlinarith [exp_042_lb, Real.exp_pos (0.42 : ℝ), Real.exp_pos (1 : ℝ)]

lemma exp_442_ub : Real.exp 4.42 < (85.1 : ℝ) := by
  rw [exp_442_split]
  have e1 : Real.exp 1 ≤ (2.7182818286 : ℝ) := le_of_lt Real.exp_one_lt_d9
  have h1 : Real.exp 1 ^ (4 : ℕ) ≤ (2.7182818286 : ℝ) ^ (4 : ℕ) :=
    pow_le_pow_left₀ (le_of_lt (Real.exp_pos _)) e1 4
  nlinarith [exp_042_ub, Real.exp_pos (0.42 : ℝ), Real.exp_pos (1 : ℝ)]

lemma logistic_neg_442_as_reciprocal :
    Real.exp (-4.42) / (1 + Real.exp (-4.42)) = 1 / (1 + Real.exp 4.42) := by
  rw [Real.exp_neg]
  have h := Real.exp_pos (4.42 : ℝ)
  rw [div_eq_div_iff (by positivity) (by positivity)]
  field_simp
  ring

/-- C5: `pile_connection_pf_balomenos` at `Hmax = 4`, `Zc = 0` with
`moment = "full"`, `comp_zone = "in"` produces the logit `g = -4.42` exactly
and returns `exp (-4.42) / (1 + exp (-4.42))`, a value close to `0.0119`
(between `0.0116` and `0.0122`). -/
theorem balomenos_concrete_scenario_hmax4 :
    (-27.06 + 9.02*(4:ℝ) - 1.88*0 + 0.18*4*0 - 4^2 + 0.04*4^3 : ℝ) = -4.42 ∧
    pile_connection_pf_balomenos ⟨4, 0⟩ ⟨"full", "in"⟩ =
      some (Real.exp (-4.42) / (1 + Real.exp (-4.42))) ∧
    0.0116 < Real.exp (-4.42) / (1 + Real.exp (-4.42)) ∧
    Real.exp (-4.42) / (1 + Real.exp (-4.42)) < 0.0122 := by
  refine ⟨by norm_num, ?_, ?_, ?_⟩
  · rw [balomenos_full_in _ _ rfl rfl]
    norm_num [logistic]
  · rw [logistic_neg_442_as_reciprocal]
    rw [lt_div_iff₀ (by positivity)]
    nlinarith [exp_442_ub]
  · rw [logistic_neg_442_as_reciprocal]
    rw [div_lt_iff₀ (by positivity)]
    nlinarith [exp_442_lb]

/-- C6: For each of the four legal selector combinations,
`pile_connection_pf_balomenos` at `Hmax = 0`, `Zc = 0` returns the logistic
transform of that branch's intercept. -/
theorem balomenos_at_origin_returns_intercept_logistic :
    pile_connection_pf_balomenos ⟨0, 0⟩ ⟨"full", "in"⟩ =
      some (Real.exp (-27.06) / (1 + Real.exp (-27.06))) ∧
    pile_connection_pf_balomenos ⟨0, 0⟩ ⟨"full", "out"⟩ =
      some (Real.exp (-26.89) / (1 + Real.exp (-26.89))) ∧
    pile_connection_pf_balomenos ⟨0, 0⟩ ⟨"partial", "in"⟩ =
      some (Real.exp (-15.01) / (1 + Real.exp (-15.01))) ∧
    pile_connection_pf_balomenos ⟨0, 0⟩ ⟨"partial", "out"⟩ =
      some (Real.exp (-20.945) / (1 + Real.exp (-20.945))) := by
  refine ⟨?_, ?_, ?_, ?_⟩
  · rw [balomenos_full_in _ _ rfl rfl]; norm_num [logistic]
  · rw [balomenos_full_out _ _ rfl rfl]; norm_num [logistic]
  · rw [balomenos_partial_in _ _ rfl rfl]; norm_num [logistic]
  · rw [balomenos_partial_out _ _ rfl rfl]; norm_num [logistic]

/-- C7: For the balomenos full/in branch with `Zc = 0`, the probability at
`Hmax = 3` (logit `-7.92`) strictly exceeds the probability at `Hmax = 0`
(logit `-27.06`). -/
theorem balomenos_full_in_pf_increases_from_hmax0_to_hmax3 :
    pile_connection_pf_balomenos ⟨3, 0⟩ ⟨"full", "in"⟩ = some (logistic (-7.92)) ∧
    pile_connection_pf_balomenos ⟨0, 0⟩ ⟨"full", "in"⟩ = some (logistic (-27.06)) ∧
    logistic (-27.06) < logistic (-7.92) := by
  refine ⟨?_, ?_, logistic_strictMono (by norm_num)⟩
  · rw [balomenos_full_in _ _ rfl rfl]; norm_num
  · rw [balomenos_full_in _ _ rfl rfl]; norm_num

/-! ## Branch-evaluation lemmas for the maniglio uplift model -/

lemma uplift_maniglio_internal (IM : IntensityMeasures) (bh bl bw dse nb : ℝ) :
    pile_connection_pf_uplift_maniglio IM ⟨bh, bl, bw, dse, nb, "internal"⟩ =
      some (logistic (-14.654 + 6.2338*IM.Hmax - 3.4827*IM.Zc
        - 30.34*bh + 2.6329*bl + 1.8639*bw - 216.59*dse
        - 0.49599*nb + 0.62134*IM.Hmax*IM.Zc - 0.59376*IM.Hmax^2
        - 0.53821*IM.Zc^2 + 13.322*bh^2 - 0.12446*bl^2
        - 0.064453*bw^2 - 0.029003*IM.Hmax^2*IM.Zc
        + 0.097103*IM.Hmax*IM.Zc^2 + 0.021735*IM.Hmax^3
        - 0.0043198*IM.Hmax^2*IM.Zc^2)) := by
  simp [pile_connection_pf_uplift_maniglio]

lemma uplift_maniglio_seaward (IM : IntensityMeasures) (bh bl bw dse nb : ℝ) :
    pile_connection_pf_uplift_maniglio IM ⟨bh, bl, bw, dse, nb, "seaward"⟩ =
      some (logistic (-8.8361 + 5.8162*IM.Hmax - 3.8618*IM.Zc
        - 28.851*bh + 2.9167*bl + 1.9991*bw
        - 206.19*dse - 1.4172*nb + 0.78347*IM.Hmax*IM.Zc
        - 0.53459*IM.Hmax^2 - 0.78347*IM.Zc^2 + 11.851*bh^2
        - 0.14821*bl^2 + 0.037589*bw^2 - 0.042766*IM.Hmax^2*IM.Zc
        + 0.14262*IM.Hmax*IM.Zc^2 + 0.019439*IM.Hmax^3
        - 0.065198*IM.Zc^3 - 0.006523*IM.Hmax^2*IM.Zc^2
        + 0.0068831*IM.Hmax*IM.Zc^3)) := by
  simp [pile_connection_pf_uplift_maniglio]

/-- C8: Every evaluation function and the dispatcher is deterministic: equal
inputs give equal outputs, and no hidden state enters the computation (each
embedded function depends only on its arguments). -/
theorem evaluation_is_deterministic :
    (∀ IM1 IM2 (p1 p2 : BalomenosParams), IM1 = IM2 → p1 = p2 →
      pile_connection_pf_balomenos IM1 p1 = pile_connection_pf_balomenos IM2 p2) ∧
    (∀ IM1 IM2 (p1 p2 : UpliftManiglioParams), IM1 = IM2 → p1 = p2 →
      pile_connection_pf_uplift_maniglio IM1 p1 = pile_connection_pf_uplift_maniglio IM2 p2) ∧
    (∀ IM1 IM2 (p1 p2 : FlexuralManiglioParams), IM1 = IM2 → p1 = p2 →
      pile_connection_pf_flexural_maniglio IM1 p1 =
        pile_connection_pf_flexural_maniglio IM2 p2) ∧
    (∀ IM1 IM2 (p1 p2 : FlexuralManiglioParams) (m1 m2 : String),
      IM1 = IM2 → p1 = p2 → m1 = m2 →
      pile_connection_uplift_pf IM1 p1 m1 = pile_connection_uplift_pf IM2 p2 m2) := by
  refine ⟨?_, ?_, ?_, ?_⟩ <;> intros <;> subst_vars <;> rfl

/-- Witness for C8: two identical calls of the balomenos model coincide. -/
theorem evaluation_is_deterministic_witness :
    pile_connection_pf_balomenos ⟨4, 0⟩ ⟨"full", "in"⟩ =
      pile_connection_pf_balomenos ⟨4, 0⟩ ⟨"full", "in"⟩ :=
  evaluation_is_deterministic.1 ⟨4, 0⟩ ⟨4, 0⟩ ⟨"full", "in"⟩ ⟨"full", "in"⟩ rfl rfl

/-- C9: Noninterference of unused covariates in the flexural model: under
`corr = "uniform"` the concrete cover `X` does not influence the output, and
under `corr = "pitting"` the pile diameter `dp` does not influence the
output. -/
theorem flexural_ignores_unused_covariates :
    (∀ IM (p : FlexuralManiglioParams) (x : ℝ), p.corr = "uniform" →
      pile_connection_pf_flexural_maniglio IM { p with X := x } =
        pile_connection_pf_flexural_maniglio IM p) ∧
    (∀ IM (p : FlexuralManiglioParams) (d : ℝ), p.corr = "pitting" →
      pile_connection_pf_flexural_maniglio IM { p with dp := d } =
        pile_connection_pf_flexural_maniglio IM p) := by
  constructor <;> intro IM p v h <;> simp [pile_connection_pf_flexural_maniglio, h]

/-- Witness for C9: changing only the concrete cover under uniform corrosion
leaves the output unchanged. -/
theorem flexural_ignores_unused_covariates_witness :
    pile_connection_pf_flexural_maniglio ⟨0, 0⟩
        { (⟨0, 0, 0, 0, 0, 0, 0, 0, 0, 0, "uniform"⟩ : FlexuralManiglioParams) with X := 5 } =
      pile_connection_pf_flexural_maniglio ⟨0, 0⟩
        ⟨0, 0, 0, 0, 0, 0, 0, 0, 0, 0, "uniform"⟩ :=
  flexural_ignores_unused_covariates.1 ⟨0, 0⟩ ⟨0, 0, 0, 0, 0, 0, 0, 0, 0, 0, "uniform"⟩ 5 rfl

/-- C10: For either valid pile position and all other inputs fixed, the
maniglio uplift probability strictly decreases in the dowel count `nb` and
strictly decreases in the dowel diameter `dse`. -/
theorem uplift_maniglio_strictly_decreasing_in_nb_and_dse :
    (∀ (IM : IntensityMeasures) (bh bl bw dse a b : ℝ) (pos : String),
      (pos = "internal" ∨ pos = "seaward") → a < b →
      ∀ x y, pile_connection_pf_uplift_maniglio IM ⟨bh, bl, bw, dse, a, pos⟩ = some x →
        pile_connection_pf_uplift_maniglio IM ⟨bh, bl, bw, dse, b, pos⟩ = some y → y < x) ∧
    (∀ (IM : IntensityMeasures) (bh bl bw nb a b : ℝ) (pos : String),
      (pos = "internal" ∨ pos = "seaward") → a < b →
      ∀ x y, pile_connection_pf_uplift_maniglio IM ⟨bh, bl, bw, a, nb, pos⟩ = some x →
        pile_connection_pf_uplift_maniglio IM ⟨bh, bl, bw, b, nb, pos⟩ = some y → y < x) := by
  constructor
  · rintro IM bh bl bw dse a b pos (rfl | rfl) hab x y hx hy
    · rw [uplift_maniglio_internal] at hx hy
      simp only [Option.some.injEq] at hx hy
      subst hx; subst hy
      exact logistic_strictMono (by nlinarith)
    · rw [uplift_maniglio_seaward] at hx hy
      simp only [Option.some.injEq] at hx hy
      subst hx; subst hy
      exact logistic_strictMono (by nlinarith)
  · rintro IM bh bl bw nb a b pos (rfl | rfl) hab x y hx hy
    · rw [uplift_maniglio_internal] at hx hy
      simp only [Option.some.injEq] at hx hy
      subst hx; subst hy
      exact logistic_strictMono (by nlinarith)
    · rw [uplift_maniglio_seaward] at hx hy
      simp only [Option.some.injEq] at hx hy
      subst hx; subst hy
      exact logistic_strictMono (by nlinarith)

/-- Witness for C10: with all geometry fields zero and internal position,
raising the dowel count from 0 to 1 strictly lowers the probability. -/
theorem uplift_maniglio_strictly_decreasing_witness :
    logistic (-15.14999) < logistic (-14.654) :=
  uplift_maniglio_strictly_decreasing_in_nb_and_dse.1 ⟨0, 0⟩ 0 0 0 0 0 1 "internal"
    (Or.inl rfl) (by norm_num) (logistic (-14.654)) (logistic (-15.14999))
    (by rw [uplift_maniglio_internal]; norm_num)
    (by rw [uplift_maniglio_internal]; norm_num)

end BerthStormFragility
